import Mathlib

/-!
Shallow embedding of `ktm_can/decoder790.py` (class `Decoder790`), the CAN
frame decoder for the KTM 790 Duke.

Modelling conventions:
* Python `bytes` payloads are modelled as `Fin 8 → Nat`; where a property
  depends on the byte range, the hypothesis `∀ i, data i < 256` is carried
  explicitly (Python's `bytes` type guarantees it).
* Python float division (`x / 10.0`, `x / 2.55`) is modelled exactly over
  `Rat`; all division results appearing in the claims are exact decimals,
  where Python float equality coincides with rational equality.
* A Python generator that yields some tuples and then raises is modelled by
  a pair `(List Field × Option String)`: the list of tuples yielded before
  the exception propagates to the consumer, and the `AssertionError`
  message, if any.  A routine that completes normally has error `none`.
-/

namespace KtmCan

/-- Extract lower nibble (4 bits) from byte; `lo_nibble` in the source. -/
def lo_nibble (b : Nat) : Nat := b &&& 0x0F

/-- Extract higher nibble (4 bits) from byte; `hi_nibble` in the source. -/
def hi_nibble (b : Nat) : Nat := (b >>> 4) &&& 0x0F

/-- Convert 12-bit value to signed integer (two's complement); `signed12` in
the source is `-(value & 0b100000000000) | (value & 0b011111111111)` over
Python's arbitrary-precision two's-complement integers, which `Int.lor`
implements. -/
def signed12 (value : Nat) : Int :=
  Int.lor (-(((value &&& 0x800) : Nat) : Int)) (((value &&& 0x7FF) : Nat) : Int)

/-- Parse 16-bit value big-endian from two bytes; `parse_big_endian_uint16`
in the source: `((high & 0xFF) << 8) | (low & 0xFF)`. -/
def parse_big_endian_uint16 (high low : Nat) : Nat :=
  ((high &&& 0xFF) <<< 8) ||| (low &&& 0xFF)

/-- `struct.unpack(">H", two bytes)`: big-endian unsigned 16-bit value.  The
two inputs come from a Python `bytes` object, hence are below 256. -/
def unpack_u16 (b0 b1 : Nat) : Nat := (b0 <<< 8) ||| b1

/-- A decoded value: Python `int`, `bool`, `float` (modelled by `Rat`) or
`str`. -/
inductive Value where
  | int : Int → Value
  | bool : Bool → Value
  | rat : Rat → Value
  | str : String → Value
deriving DecidableEq

/-- One `(id, key, value)` tuple yielded by the decoder. -/
abbrev Field := Int × String × Value

/-- A message read from the bus: identifier plus 8 data bytes. -/
structure Msg where
  id : Int
  data : Fin 8 → Nat

/-- All payload bytes are in byte range, as Python's `bytes` guarantees. -/
def Msg.wf (m : Msg) : Prop := ∀ i, m.data i < 256

/-- The two construction-time configuration flags of `Decoder790`. -/
structure Decoder790 where
  emit_unmapped : Bool
  enable_assertions : Bool

/-- `is_known_can_id`: membership in the fixed CAN identifier registry. -/
def is_known_can_id (can_id : Int) : Prop :=
  can_id ∈ [(0x120 : Int), 0x129, 0x12A, 0x12B, 0x290, 0x450, 0x540, 0x550, 0x552, 0x650]

instance (can_id : Int) : Decidable (is_known_can_id can_id) := by
  unfold is_known_can_id; infer_instance

/-- Two-digit uppercase hex rendering of one byte, Python `f"{b:02X}"` for
`b < 256`. -/
def byteHex (b : Nat) : String :=
  String.mk [Nat.digitChar ((b >>> 4) &&& 0xF) |>.toUpper, Nat.digitChar (b &&& 0xF) |>.toUpper]

/-- The string `" ".join(f"{b:02X}" for b in msg.data)` built by the
unmapped fallback branch of `decode`. -/
def unmappedStr (m : Msg) : String :=
  String.intercalate " " ((List.finRange 8).map (fun i => byteHex (m.data i)))

/-- `_decode_throttle_mode`: CAN ID 0x120. -/
def decode_throttle_mode (m : Msg) : List Field :=
  [ (m.id, "rpm", .int (unpack_u16 (m.data 0) (m.data 1))),
    (m.id, "throttle", .int (m.data 2)),
    (m.id, "kill_switch", .bool (((m.data 3 &&& 0b10000000) >>> 7) == 1)),
    (m.id, "throttle_map", .int (lo_nibble (m.data 3))) ]

/-- `_decode_gear_clutch`: CAN ID 0x129. -/
def decode_gear_clutch (m : Msg) : List Field :=
  [ (m.id, "gear", .int (hi_nibble (m.data 0))),
    (m.id, "clutch_in", .bool (((m.data 0 &&& 0b00001000) >>> 3) == 1)) ]

/-- `_decode_throttle_state`: CAN ID 0x12A. -/
def decode_throttle_state (m : Msg) : List Field :=
  [ (m.id, "throttle_open", .int (m.data 0)),
    (m.id, "requested_throttle_map", .int (m.data 1)),
    (m.id, "ride_mode", .int (m.data 2)) ]

/-- `_decode_wheel_speed`: CAN ID 0x12B. -/
def decode_wheel_speed (m : Msg) : List Field :=
  [ (m.id, "front_wheel_speed", .int (unpack_u16 (m.data 0) (m.data 1))),
    (m.id, "rear_wheel_speed", .int (unpack_u16 (m.data 2) (m.data 3))),
    (m.id, "lean_angle",
      .rat ((signed12 (parse_big_endian_uint16 (m.data 4) (m.data 5) &&& 0xFFF) : Rat) / 10)),
    (m.id, "tilt_angle",
      .rat ((signed12 (parse_big_endian_uint16 (m.data 6) (m.data 7) &&& 0xFFF) : Rat) / 10)) ]

/-- `_decode_brakes`: CAN ID 0x290. -/
def decode_brakes (m : Msg) : List Field :=
  [ (m.id, "front_brake_pressure", .int (unpack_u16 (m.data 0) (m.data 1))),
    (m.id, "rear_brake_pressure", .int (unpack_u16 (m.data 2) (m.data 3))) ]

/-- `_decode_traction_control`: CAN ID 0x450. -/
def decode_traction_control (m : Msg) : List Field :=
  [ (m.id, "traction_control_button", .bool ((m.data 0 &&& 0b00000001) == 1)) ]

/-- `_decode_sensor`: CAN ID 0x540.  Yields four fields, then runs
`do_assert(msg.data[4] == 0x00, "D5 must be 0x00")`; when assertions are
enabled and the byte is nonzero the generator raises before yielding
`coolant_temp`. -/
def decode_sensor (enable_assertions : Bool) (m : Msg) : List Field × Option String :=
  let pre : List Field :=
    [ (m.id, "rpm", .int (unpack_u16 (m.data 0) (m.data 1))),
      (m.id, "gear", .int (lo_nibble (m.data 2))),
      (m.id, "kickstand_up", .bool ((m.data 3 &&& 0b00000001) == 1)),
      (m.id, "kickstand_err", .bool (((m.data 3 &&& 0b10000000) >>> 7) == 1)) ]
  if enable_assertions && !(m.data 4 == 0x00) then
    (pre, some "D5 must be 0x00")
  else
    (pre ++ [(m.id, "coolant_temp", .rat ((unpack_u16 (m.data 5) (m.data 6) : Rat) / 10))], none)

/-- `_decode_kill_switch`: CAN ID 0x550. -/
def decode_kill_switch (m : Msg) : List Field :=
  [ (m.id, "kill_switch_on", .bool ((m.data 0 &&& 0b00000001) == 1)) ]

/-- `_decode_fuel_level`: CAN ID 0x552. -/
def decode_fuel_level (m : Msg) : List Field :=
  [ (m.id, "fuel_level_percent", .rat ((m.data 0 : Rat) / (51 / 20))) ]

/-- `_decode_lights`: CAN ID 0x650. -/
def decode_lights (m : Msg) : List Field :=
  [ (m.id, "low_beam_on", .bool ((m.data 0 &&& 0b00000001) == 1)),
    (m.id, "high_beam_on", .bool (((m.data 0 &&& 0b00000010) >>> 1) == 1)),
    (m.id, "brake_light_on", .bool (((m.data 0 &&& 0b00000100) >>> 2) == 1)),
    (m.id, "turn_signal_left", .bool (((m.data 0 &&& 0b00001000) >>> 3) == 1)),
    (m.id, "turn_signal_right", .bool (((m.data 0 &&& 0b00010000) >>> 4) == 1)) ]

/-- `Decoder790.decode`: dispatch on the identifier; the final `elif
self.emit_unmapped` branch dumps every byte of an unknown identifier as
uppercase hex. -/
def decode (d : Decoder790) (m : Msg) : List Field × Option String :=
  if m.id = 0x120 then (decode_throttle_mode m, none)
  else if m.id = 0x129 then (decode_gear_clutch m, none)
  else if m.id = 0x12A then (decode_throttle_state m, none)
  else if m.id = 0x12B then (decode_wheel_speed m, none)
  else if m.id = 0x290 then (decode_brakes m, none)
  else if m.id = 0x450 then (decode_traction_control m, none)
  else if m.id = 0x540 then decode_sensor d.enable_assertions m
  else if m.id = 0x550 then (decode_kill_switch m, none)
  else if m.id = 0x552 then (decode_fuel_level m, none)
  else if m.id = 0x650 then (decode_lights m, none)
  else if d.emit_unmapped then ([(m.id, "unmapped", .str (unmappedStr m))], none)
  else ([], none)

/-! Helper lemmas turning `signed12` (whose `Int.lor` does not reduce in the
kernel because of `Nat.ldiff`) into a closed arithmetic form. -/

/-- Subtracting from an all-ones mask is bitwise exclusive or. -/
theorem xor_two_pow_sub_one : ∀ (k m : Nat), m < 2 ^ k → (2 ^ k - 1) ^^^ m = 2 ^ k - 1 - m := by
  intro k
  induction k with
  | zero =>
    intro m hm
    have hm0 : m = 0 := by omega
    subst hm0
    decide
  | succ k ih =>
    intro m hm
    have hpos : 0 < 2 ^ k := Nat.pos_pow_of_pos k (by omega)
    have hsplit : 2 ^ (k + 1) = 2 * 2 ^ k := by rw [Nat.pow_succ, Nat.mul_comm]
    have hdiv : m / 2 < 2 ^ k := by omega
    have hx := ih (m / 2) hdiv
    have hdivtop : (2 ^ (k + 1) - 1) / 2 = 2 ^ k - 1 := by omega
    have e1 : ((2 ^ (k + 1) - 1) ^^^ m) / 2 = (2 ^ k - 1) ^^^ (m / 2) := by
      rw [Nat.xor_div_two, hdivtop]
    have e2 : ((2 ^ (k + 1) - 1) ^^^ m) % 2 = 1 - m % 2 := by
      rcases Nat.mod_two_eq_zero_or_one m with h | h
      · have h1 : ((2 ^ (k + 1) - 1) ^^^ m) % 2 = 1 := by
          rw [Nat.xor_mod_two_eq_one]; omega
        omega
      · have h1 : ¬ (((2 ^ (k + 1) - 1) ^^^ m) % 2 = 1) := by
          rw [Nat.xor_mod_two_eq_one]; omega
        omega
    have e3 := Nat.div_add_mod ((2 ^ (k + 1) - 1) ^^^ m) 2
    omega

/-- The stuck `Nat.ldiff` arising from `Int.lor` on the negative mask,
evaluated against a low 11-bit operand. -/
theorem ldiff_2047 (m : Nat) (h : m < 2048) : Nat.ldiff 2047 m = 2047 - m := by
  have h1 : Nat.ldiff 2047 m = 2047 ^^^ m := by
    apply Nat.eq_of_testBit_eq
    intro i
    rw [Nat.testBit_ldiff, Nat.testBit_xor]
    have h2047 : (2047 : Nat) = 2 ^ 11 - 1 := by norm_num
    rw [h2047, Nat.testBit_two_pow_sub_one]
    by_cases hi : i < 11
    · simp [hi]
    · have hmi : m.testBit i = false := by
        apply Nat.testBit_lt_two_pow
        calc m < 2048 := h
          _ = 2 ^ 11 := by norm_num
          _ ≤ 2 ^ i := Nat.pow_le_pow_right (by omega) (by omega)
      simp [hi, hmi]
  have h2 := xor_two_pow_sub_one 11 m (by norm_num; omega)
  norm_num at h2
  rw [h1, h2]

/-- Closed form of `signed12`, free of `Int.lor`, enabling kernel
computation and arithmetic reasoning. -/
theorem signed12_eq (x : Nat) :
    signed12 x = if x &&& 0x800 = 0 then ((x &&& 0x7FF : Nat) : Int)
      else ((x &&& 0x7FF : Nat) : Int) - 2048 := by
  have hlow : x &&& 0x7FF < 2048 := by
    have h := @Nat.and_le_right x 0x7FF
    omega
  have hcases : x &&& 0x800 = 0 ∨ x &&& 0x800 = 2048 := by
    have h := Nat.and_two_pow x 11
    norm_num at h
    rcases Bool.eq_false_or_eq_true (x.testBit 11) with hb | hb <;> rw [hb] at h <;> simp at h <;> omega
  unfold signed12
  rcases hcases with h | h
  · rw [if_pos h, h]
    show Int.ofNat (0 ||| (x &&& 0x7FF)) = ((x &&& 0x7FF : Nat) : Int)
    rw [Nat.zero_or]
    rfl
  · rw [if_neg (show ¬ (x &&& 0x800 = 0) by omega), h]
    show Int.negSucc (Nat.ldiff 2047 (x &&& 0x7FF)) = ((x &&& 0x7FF : Nat) : Int) - 2048
    rw [ldiff_2047 _ hlow, Int.negSucc_eq,
      Nat.cast_sub (show x &&& 0x7FF ≤ 2047 by omega)]
    push_cast
    ring

/-- Rational division by ten of a cast integer, rewritten to the
kernel-computable `Rat.divInt`. -/
theorem int_div_ten (n : Int) : (n : Rat) / 10 = Rat.divInt n 10 := by
  rw [Rat.divInt_eq_div]; norm_num

/-- Rational division by ten of a cast natural, rewritten to the
kernel-computable `Rat.divInt`. -/
theorem nat_div_ten (n : Nat) : (n : Rat) / 10 = Rat.divInt n 10 := by
  rw [Rat.divInt_eq_div]; norm_num

set_option maxHeartbeats 2000000 in
/-- Every tuple yielded by `decode` is tagged with the message identifier,
and a tuple named "unmapped" only arises from the unknown-identifier
fallback branch. -/
theorem decode_mem_cases (d : Decoder790) (m : Msg) (f : Field)
    (hf : f ∈ (decode d m).1) :
    f.1 = m.id ∧ (f.2.1 = "unmapped" → ¬ is_known_can_id m.id) := by
  unfold decode at hf
  split_ifs at hf with h1 h2 h3 h4 h5 h6 h7 h8 h9 h10 h11
  · simp only [decode_throttle_mode, List.mem_cons, List.not_mem_nil, or_false] at hf
    rcases hf with rfl | rfl | rfl | rfl <;> exact ⟨rfl, by simp⟩
  · simp only [decode_gear_clutch, List.mem_cons, List.not_mem_nil, or_false] at hf
    rcases hf with rfl | rfl <;> exact ⟨rfl, by simp⟩
  · simp only [decode_throttle_state, List.mem_cons, List.not_mem_nil, or_false] at hf
    rcases hf with rfl | rfl | rfl <;> exact ⟨rfl, by simp⟩
  · simp only [decode_wheel_speed, List.mem_cons, List.not_mem_nil, or_false] at hf
    rcases hf with rfl | rfl | rfl | rfl <;> exact ⟨rfl, by simp⟩
  · simp only [decode_brakes, List.mem_cons, List.not_mem_nil, or_false] at hf
    rcases hf with rfl | rfl <;> exact ⟨rfl, by simp⟩
  · simp only [decode_traction_control, List.mem_cons, List.not_mem_nil, or_false] at hf
    rcases hf with rfl
    exact ⟨rfl, by simp⟩
  · simp only [decode_sensor] at hf
    split_ifs at hf with hc
    · simp only [List.mem_cons, List.not_mem_nil, or_false] at hf
      rcases hf with rfl | rfl | rfl | rfl <;> exact ⟨rfl, by simp⟩
    · simp only [List.mem_append, List.mem_cons, List.not_mem_nil, or_false] at hf
      rcases hf with (rfl | rfl | rfl | rfl) | rfl <;> exact ⟨rfl, by simp⟩
  · simp only [decode_kill_switch, List.mem_cons, List.not_mem_nil, or_false] at hf
    rcases hf with rfl
    exact ⟨rfl, by simp⟩
  · simp only [decode_fuel_level, List.mem_cons, List.not_mem_nil, or_false] at hf
    rcases hf with rfl
    exact ⟨rfl, by simp⟩
  · simp only [decode_lights, List.mem_cons, List.not_mem_nil, or_false] at hf
    rcases hf with rfl | rfl | rfl | rfl | rfl <;> exact ⟨rfl, by simp⟩
  · simp only [List.mem_cons, List.not_mem_nil, or_false] at hf
    subst hf
    refine ⟨rfl, fun _ hk => ?_⟩
    simp only [is_known_can_id, List.mem_cons, List.not_mem_nil, or_false] at hk
    rcases hk with h | h | h | h | h | h | h | h | h | h
    · exact h1 h
    · exact h2 h
    · exact h3 h
    · exact h4 h
    · exact h5 h
    · exact h6 h
    · exact h7 h
    · exact h8 h
    · exact h9 h
    · exact h10 h
  · simp only [List.not_mem_nil] at hf

/-! Claim theorems. -/

/-- Claim C1, counterexample: with `emit_unmapped = true`, decoding the
known identifier 0x129 with payload `[0x30,0,0,0,0,0,0,0x30]` yields only
the two fixed fields `gear` and `clutch_in`; no extra "unmapped" field is
emitted for known identifiers, refuting the claimed placeholder/hex
rendering for this input. -/
theorem c1_counterexample :
    decode ⟨true, false⟩ ⟨0x129, ![0x30, 0, 0, 0, 0, 0, 0, 0x30]⟩ =
      ([(0x129, "gear", Value.int 3), (0x129, "clutch_in", Value.bool false)], none) := by
  decide

/-- Claim C1, amended: for every known identifier and every payload, no
field named "unmapped" is ever yielded, for either value of
`emit_unmapped`; the "unmapped" dump exists only for unknown identifiers. -/
theorem c1_amended_thm (d : Decoder790) (m : Msg) (hk : is_known_can_id m.id) :
    ∀ f ∈ (decode d m).1, f.2.1 ≠ "unmapped" := by
  intro f hf hx
  exact (decode_mem_cases d m f hf).2 hx hk

/-- Claim C1 witness: the amended theorem applied to identifier 0x129. -/
theorem c1_witness : (((0x129 : Int), "gear", Value.int 3) : Field).2.1 ≠ "unmapped" :=
  c1_amended_thm ⟨true, false⟩ ⟨0x129, ![0x30, 0, 0, 0, 0, 0, 0, 0x30]⟩ (by decide)
    (0x129, "gear", Value.int 3) (by decide)

/-- Claim C2, counterexample: an unknown identifier (0x999) with
`emit_unmapped = true` yields one "unmapped" field dumping all eight bytes
as hex, not the empty sequence the claim asserts. -/
theorem c2_counterexample :
    decode ⟨true, false⟩ ⟨0x999, ![0, 0, 0, 0, 0, 0, 0, 0]⟩ =
      ([(0x999, "unmapped", Value.str "00 00 00 00 00 00 00 00")], none) := by
  decide

/-- Claim C2, amended: an unknown identifier yields the empty sequence
exactly when `emit_unmapped` is false; when it is true, it yields a single
"unmapped" field whose string renders all eight bytes as two-digit
uppercase hex, space-separated, in offset order. -/
theorem c2_amended_thm (d : Decoder790) (m : Msg) (hk : ¬ is_known_can_id m.id) :
    decode d m =
      if d.emit_unmapped then ([(m.id, "unmapped", Value.str (unmappedStr m))], none)
      else ([], none) := by
  simp only [is_known_can_id, List.mem_cons, List.not_mem_nil, or_false] at hk
  push_neg at hk
  obtain ⟨n1, n2, n3, n4, n5, n6, n7, n8, n9, n10⟩ := hk
  unfold decode
  rw [if_neg n1, if_neg n2, if_neg n3, if_neg n4, if_neg n5, if_neg n6, if_neg n7,
    if_neg n8, if_neg n9, if_neg n10]

/-- Claim C2 witness: the amended theorem applied to identifier 0x999 with
`emit_unmapped = false`. -/
theorem c2_witness :
    (¬ is_known_can_id 0x999) ∧
      decode ⟨false, true⟩ ⟨0x999, ![1, 2, 3, 4, 5, 6, 7, 8]⟩ = ([], none) :=
  ⟨by decide, by
    rw [c2_amended_thm ⟨false, true⟩ ⟨0x999, ![1, 2, 3, 4, 5, 6, 7, 8]⟩ (by decide)]
    rfl⟩

/-- Claim C3, counterexample: decoding 0x540 with byte 4 nonzero and
assertions enabled yields the four fields extracted before the check to
the consumer, together with a bare assertion message carrying neither the
identifier nor the offending byte; the consumer does not observe zero
fields. -/
theorem c3_counterexample :
    decode ⟨false, true⟩ ⟨0x540, ![0, 0, 0, 0, 1, 0, 0, 0]⟩ =
      ([(0x540, "rpm", Value.int 0), (0x540, "gear", Value.int 0),
        (0x540, "kickstand_up", Value.bool false), (0x540, "kickstand_err", Value.bool false)],
        some "D5 must be 0x00") := by
  decide

/-- Claim C3, amended: for every payload of identifier 0x540 with byte 4
nonzero and assertions enabled, decoding yields exactly the four fields
`rpm`, `gear`, `kickstand_up`, `kickstand_err` followed by the assertion
failure "D5 must be 0x00"; `coolant_temp` is not yielded. -/
theorem c3_amended_thm (eu : Bool) (data : Fin 8 → Nat) (h : data 4 ≠ 0) :
    decode ⟨eu, true⟩ ⟨0x540, data⟩ =
      ([((0x540 : Int), "rpm", Value.int (unpack_u16 (data 0) (data 1))),
        (0x540, "gear", Value.int (lo_nibble (data 2))),
        (0x540, "kickstand_up", Value.bool ((data 3 &&& 0b00000001) == 1)),
        (0x540, "kickstand_err", Value.bool (((data 3 &&& 0b10000000) >>> 7) == 1))],
        some "D5 must be 0x00") := by
  have hb : (data 4 == 0) = false := by simpa using h
  show decode_sensor true ⟨0x540, data⟩ = _
  simp [decode_sensor, hb]

/-- Claim C3 witness: the amended theorem applied to a payload with byte 4
equal to 9. -/
theorem c3_witness :
    decode ⟨false, true⟩ ⟨0x540, ![0, 0, 0, 0, 9, 0, 0, 0]⟩ =
      ([((0x540 : Int), "rpm", Value.int 0), (0x540, "gear", Value.int 0),
        (0x540, "kickstand_up", Value.bool false), (0x540, "kickstand_err", Value.bool false)],
        some "D5 must be 0x00") :=
  c3_amended_thm false ![0, 0, 0, 0, 9, 0, 0, 0] (by decide)

/-- Claim C4, counterexample: on payload `[02,06,65,00,01,00,01,DD]` with
assertions enabled, byte 4 is 0x01, so the `data[4] == 0x00` check fails:
only four fields are yielded (none of them `coolant_temp`) together with
the assertion failure, refuting the claimed five fields with
`coolant_temp = 47.7` and the claim that the assertion holds. -/
theorem c4_counterexample :
    decode ⟨false, true⟩ ⟨0x540, ![0x02, 0x06, 0x65, 0x00, 0x01, 0x00, 0x01, 0xDD]⟩ =
      ([(0x540, "rpm", Value.int 518), (0x540, "gear", Value.int 5),
        (0x540, "kickstand_up", Value.bool false), (0x540, "kickstand_err", Value.bool false)],
        some "D5 must be 0x00") ∧ (0x01 : Nat) ≠ 0x00 :=
  ⟨by decide, by decide⟩

/-- Claim C4, amended: on that payload the assertion-disabled decoder
yields five fields, with `rpm = 518`, `gear = 5`, both kickstand booleans
false, and `coolant_temp = 0.1`, the big-endian u16 of bytes 5..6 divided
by ten; with assertions enabled decoding fails as in the counterexample. -/
theorem c4_amended_thm :
    decode ⟨false, false⟩ ⟨0x540, ![0x02, 0x06, 0x65, 0x00, 0x01, 0x00, 0x01, 0xDD]⟩ =
      ([(0x540, "rpm", Value.int 518), (0x540, "gear", Value.int 5),
        (0x540, "kickstand_up", Value.bool false), (0x540, "kickstand_err", Value.bool false),
        (0x540, "coolant_temp", Value.rat 0.1)], none) := by
  simp only [decode, decode_sensor, nat_div_ten,
    show (0.1 : Rat) = Rat.divInt 1 10 by rw [Rat.divInt_eq_div]; norm_num]
  decide

/-- Claim C5, counterexample: decoding 0x12B with payload
`[00,00,02,16,00,02,8F,FD]` yields `lean_angle = 0.2` and
`tilt_angle = -0.3` (by the very formulas the claim states), not the
claimed 4.0 and -11.3. -/
theorem c5_counterexample :
    (decode ⟨false, false⟩ ⟨0x12B, ![0x00, 0x00, 0x02, 0x16, 0x00, 0x02, 0x8F, 0xFD]⟩ =
      ([(0x12B, "front_wheel_speed", Value.int 0), (0x12B, "rear_wheel_speed", Value.int 534),
        (0x12B, "lean_angle", Value.rat 0.2), (0x12B, "tilt_angle", Value.rat (-0.3))], none)) ∧
      Value.rat 0.2 ≠ Value.rat 4 ∧ Value.rat (-0.3) ≠ Value.rat (-11.3) := by
  refine ⟨?_, by norm_num, by norm_num⟩
  simp only [decode, decode_wheel_speed, signed12_eq, int_div_ten,
    show (0.2 : Rat) = Rat.divInt 1 5 by rw [Rat.divInt_eq_div]; norm_num,
    show (-0.3 : Rat) = Rat.divInt (-3) 10 by rw [Rat.divInt_eq_div]; norm_num]
  decide

/-- Claim C5, amended: decoding 0x12B with payload
`[00,00,02,16,00,02,8F,FD]` yields `front_wheel_speed = 0`,
`rear_wheel_speed = 534`, `lean_angle = 0.2` and `tilt_angle = -0.3`,
where the angles are `signed12(big_endian_u16(..) & 0xFFF) / 10`. -/
theorem c5_amended_thm :
    decode ⟨false, false⟩ ⟨0x12B, ![0x00, 0x00, 0x02, 0x16, 0x00, 0x02, 0x8F, 0xFD]⟩ =
      ([(0x12B, "front_wheel_speed", Value.int 0), (0x12B, "rear_wheel_speed", Value.int 534),
        (0x12B, "lean_angle",
          Value.rat ((signed12 (parse_big_endian_uint16 0x00 0x02 &&& 0xFFF) : Rat) / 10)),
        (0x12B, "tilt_angle",
          Value.rat ((signed12 (parse_big_endian_uint16 0x8F 0xFD &&& 0xFFF) : Rat) / 10))],
        none) ∧
      (signed12 (parse_big_endian_uint16 0x00 0x02 &&& 0xFFF) : Rat) / 10 = 0.2 ∧
      (signed12 (parse_big_endian_uint16 0x8F 0xFD &&& 0xFFF) : Rat) / 10 = -0.3 := by
  refine ⟨rfl, ?_, ?_⟩ <;>
    simp only [signed12_eq, int_div_ten,
      show (0.2 : Rat) = Rat.divInt 1 5 by rw [Rat.divInt_eq_div]; norm_num,
      show (-0.3 : Rat) = Rat.divInt (-3) 10 by rw [Rat.divInt_eq_div]; norm_num] <;>
    decide

/-- Claim C6: decoding 0x120 with payload `[06,79,00,00,00,00,00,3F]` and
`emit_unmapped = false` yields exactly the four fields `rpm = 1657`,
`throttle = 0`, `kill_switch = false`, `throttle_map = 0`, in this order,
for either assertion setting. -/
theorem c6_thm (ea : Bool) :
    decode ⟨false, ea⟩ ⟨0x120, ![0x06, 0x79, 0x00, 0x00, 0x00, 0x00, 0x00, 0x3F]⟩ =
      ([(0x120, "rpm", Value.int 1657), (0x120, "throttle", Value.int 0),
        (0x120, "kill_switch", Value.bool false), (0x120, "throttle_map", Value.int 0)], none) := by
  cases ea <;> decide

/-- Claim C6 witness: the theorem at `enable_assertions = false`. -/
theorem c6_witness :
    decode ⟨false, false⟩ ⟨0x120, ![0x06, 0x79, 0x00, 0x00, 0x00, 0x00, 0x00, 0x3F]⟩ =
      ([(0x120, "rpm", Value.int 1657), (0x120, "throttle", Value.int 0),
        (0x120, "kill_switch", Value.bool false), (0x120, "throttle_map", Value.int 0)], none) :=
  c6_thm false

/-- Claim C7: with assertions disabled, decoding 0x540 never raises and
yields the full five-field set `rpm`, `gear`, `kickstand_up`,
`kickstand_err`, `coolant_temp` computed from the actual bytes, for every
payload, in particular when byte 4 is nonzero. -/
theorem c7_thm (eu : Bool) (data : Fin 8 → Nat) :
    decode ⟨eu, false⟩ ⟨0x540, data⟩ =
      ([((0x540 : Int), "rpm", Value.int (unpack_u16 (data 0) (data 1))),
        (0x540, "gear", Value.int (lo_nibble (data 2))),
        (0x540, "kickstand_up", Value.bool ((data 3 &&& 0b00000001) == 1)),
        (0x540, "kickstand_err", Value.bool (((data 3 &&& 0b10000000) >>> 7) == 1)),
        (0x540, "coolant_temp", Value.rat ((unpack_u16 (data 5) (data 6) : Rat) / 10))],
        none) := rfl

/-- Claim C7 witness: the theorem at a payload with byte 4 equal to 9. -/
theorem c7_witness :
    decode ⟨false, false⟩ ⟨0x540, ![0, 0, 0, 0, 9, 0, 2, 0]⟩ =
      ([((0x540 : Int), "rpm", Value.int 0), (0x540, "gear", Value.int 0),
        (0x540, "kickstand_up", Value.bool false), (0x540, "kickstand_err", Value.bool false),
        (0x540, "coolant_temp", Value.rat ((unpack_u16 0 2 : Rat) / 10))],
        none) :=
  c7_thm false ![0, 0, 0, 0, 9, 0, 2, 0]

/-- Claim C8: for every `x` in `[0, 4095]`, `signed12 x` lies in
`[-2048, 2047]` and equals `x - 4096` when bit 11 of `x` is set, else `x`;
in particular `signed12 0 = 0`, `signed12 0xFFF = -1`,
`signed12 0x800 = -2048` and `signed12 0x7FF = 2047`. -/
theorem c8_thm :
    (∀ x : Nat, x < 4096 →
      -2048 ≤ signed12 x ∧ signed12 x ≤ 2047 ∧
        signed12 x = if x.testBit 11 then (x : Int) - 4096 else (x : Int)) ∧
      signed12 0 = 0 ∧ signed12 0xFFF = -1 ∧
      signed12 0x800 = -2048 ∧ signed12 0x7FF = 2047 := by
  refine ⟨?_, ?_, ?_, ?_, ?_⟩
  · intro x hx
    have hm : x &&& 0x7FF = x % 2048 := by
      have h := Nat.and_pow_two_sub_one_eq_mod x 11
      norm_num at h
      exact h
    have hmask : x &&& 0x800 = (x.testBit 11).toNat * 2048 := by
      have h := Nat.and_two_pow x 11
      norm_num at h
      exact h
    have htb : x.testBit 11 = decide (x / 2048 % 2 = 1) := by
      have h := Nat.testBit_to_div_mod (x := x) (i := 11)
      norm_num at h
      exact h
    rw [signed12_eq, hm]
    cases hb : x.testBit 11
    · rw [hb] at hmask htb
      have h0 : x &&& 0x800 = 0 := by rw [hmask]; rfl
      have hlt : x < 2048 := by
        have h1 : ¬ (x / 2048 % 2 = 1) := by
          intro hq
          rw [hq] at htb
          simp at htb
        omega
      rw [if_pos h0]
      refine ⟨by omega, by omega, ?_⟩
      simp only [Bool.false_eq_true, if_false]
      omega
    · rw [hb] at hmask htb
      have h0 : ¬ (x &&& 0x800 = 0) := by rw [hmask]; simp
      have hq : x / 2048 % 2 = 1 := by
        rcases Nat.mod_two_eq_zero_or_one (x / 2048) with h | h
        · rw [h] at htb; simp at htb
        · exact h
      have hge : 2048 ≤ x := by omega
      rw [if_neg h0]
      refine ⟨by omega, by omega, ?_⟩
      simp only [if_true]
      omega
  · rw [signed12_eq]; decide
  · rw [signed12_eq]; decide
  · rw [signed12_eq]; decide
  · rw [signed12_eq]; decide

/-- Claim C8 witness: the bound and formula instantiated at 0x800. -/
theorem c8_witness : -2048 ≤ signed12 0x800 ∧ signed12 0x800 ≤ 2047 :=
  ⟨(c8_thm.1 0x800 (by norm_num)).1, (c8_thm.1 0x800 (by norm_num)).2.1⟩

/-- Claim C9: `decode` is deterministic — for a fixed configuration, any
two messages with the same identifier and the same payload decode to the
same ordered sequence of `(id, key, value)` tuples. -/
theorem c9_thm (d : Decoder790) (m1 m2 : Msg) (h1 : m1.id = m2.id)
    (h2 : m1.data = m2.data) : decode d m1 = decode d m2 := by
  rcases m1 with ⟨i1, p1⟩
  rcases m2 with ⟨i2, p2⟩
  obtain rfl : i1 = i2 := h1
  obtain rfl : p1 = p2 := h2
  rfl

/-- Claim C9 witness: the theorem at a concrete message. -/
theorem c9_witness :
    decode ⟨true, true⟩ ⟨0x450, ![1, 0, 0, 0, 0, 0, 0, 0]⟩ =
      decode ⟨true, true⟩ ⟨0x450, ![1, 0, 0, 0, 0, 0, 0, 0]⟩ :=
  c9_thm ⟨true, true⟩ ⟨0x450, ![1, 0, 0, 0, 0, 0, 0, 0]⟩ ⟨0x450, ![1, 0, 0, 0, 0, 0, 0, 0]⟩
    rfl rfl

/-- Claim C10: every tuple yielded by `decode`, for every configuration,
identifier and payload, is tagged with the identifier of the input
message. -/
theorem c10_thm (d : Decoder790) (m : Msg) (f : Field) (hf : f ∈ (decode d m).1) :
    f.1 = m.id :=
  (decode_mem_cases d m f hf).1

/-- Claim C10 witness: the theorem applied to the `low_beam_on` field of a
0x650 message. -/
theorem c10_witness :
    (((0x650 : Int), "low_beam_on", Value.bool true) : Field).1 =
      (⟨0x650, ![1, 0, 0, 0, 0, 0, 0, 0]⟩ : Msg).id :=
  c10_thm ⟨false, false⟩ ⟨0x650, ![1, 0, 0, 0, 0, 0, 0, 0]⟩
    (0x650, "low_beam_on", Value.bool true) (by decide)

end KtmCan
